import Mathlib

/-!
# Verification of the `filehider` matcher, event classifier and watch loop

Shallow embedding of `src/main.rs` of the `filehider` repository.

Modelling conventions:

* Rust `HashSet<String>` is modelled as `List String`; only `contains` and
  `is_empty` are used by the source, and both are order- and
  duplicate-insensitive, so the model is faithful.
* `anyhow::Result<T>` is modelled as `Except String T`; the context messages
  keep the source's wording but drop the interpolated path display.
* Filesystem observations (`fs::metadata`, `Path::file_name`,
  `Path::extension`) are modelled by an `EntryView` record: `none` marks the
  corresponding retrieval failing.  A name that exists but is not valid
  Unicode cannot be represented by a Lean `String`; that failure mode is
  folded into the same `none`.
* Wall-clock instants are modelled as whole seconds (`Nat`), matching the
  source's use of `Instant::elapsed().as_secs()` which observes whole
  seconds only.
-/

deriving instance DecidableEq for Except

namespace FileHider

/-- Rust `String::to_lowercase`, restricted to the per-`Char` lowering that
`Char.toLower` performs (the claims only exercise ASCII data). -/
def lower (s : String) : String := String.mk (s.data.map Char.toLower)

/-- Rust `str::starts_with('.')`: the first character is a dot. -/
def starts_with_dot (s : String) : Bool :=
  match s.data with
  | [] => false
  | c :: _ => c == '.'

/-- `FileType` from `src/main.rs`: the kinds of entries that may be hidden. -/
inductive FileType where
  | File
  | Directory
deriving DecidableEq, Repr

/-- Result of `fs::metadata(path)`: the observed kind bits used by the
source (`Metadata::is_file` / `Metadata::is_dir`). -/
structure EntryMeta where
  is_file : Bool
  is_dir : Bool
deriving DecidableEq, Repr

/-- Everything `should_hide_file` observes about a path:
`metadata = none` models `fs::metadata` failing;
`file_name = none` models `Path::file_name()` returning `None` or `to_str`
failing; `extension = none` models `Path::extension()` returning `None` or
`to_str` failing. -/
structure EntryView where
  metadata : Option EntryMeta
  file_name : Option String
  extension : Option String
deriving DecidableEq, Repr

/-- The file-name half of `setup` (`src/main.rs:474-484`): each configured
file name is passed through `to_lowercase` exactly when `case_sensitive` is
set (this is the condition as written in the source). -/
def setup_file_names (file_names : List String) (case_sensitive : Bool) :
    List String :=
  file_names.map (fun file_name =>
    if case_sensitive then lower file_name else file_name)

/-- The extension half of `setup` (`src/main.rs:486-497`): same folding
condition as for file names. -/
def setup_file_extensions (file_extensions : List String)
    (case_sensitive : Bool) : List String :=
  file_extensions.map (fun file_extension =>
    if case_sensitive then lower file_extension else file_extension)

/-- `should_hide_file` from `src/main.rs:502-581`, decision for one entry.

Order of checks, as in the source: the empty-filters early return; then
metadata; then the file branch (exact name membership, then extension
membership folded only when `case_sensitive` is false); then the directory
branch (name membership, folded only when `case_sensitive` is false);
otherwise no match. -/
def should_hide_file (e : EntryView) (file_names file_extensions : List String)
    (case_sensitive hide_files hide_directories : Bool) :
    Except String Bool :=
  if file_names.isEmpty && file_extensions.isEmpty then
    .ok true
  else
    match e.metadata with
    | none => .error "Failed to get metadata for path"
    | some metadata =>
      if metadata.is_file && hide_files then
        match e.file_name with
        | none => .error "Failed to get file name from path"
        | some file_name =>
          if file_names.contains file_name then
            .ok true
          else
            match e.extension with
            | none => .error "Failed to get file extension from path"
            | some file_extension =>
              if case_sensitive then
                .ok (file_extensions.contains file_extension)
              else
                .ok (file_extensions.contains (lower file_extension))
      else if metadata.is_dir && hide_directories then
        match e.file_name with
        | none => .error "Failed to get directory name from path"
        | some directory_name =>
          if case_sensitive then
            .ok (file_names.contains directory_name)
          else
            .ok (file_names.contains (lower directory_name))
      else
        .ok false

/-- The two mode flags of `Args` consumed by `main`'s dispatch
(`src/main.rs:48-58`). -/
structure ModeArgs where
  watch : Bool
  immediate : Bool
deriving DecidableEq, Repr

/-- The three externally visible steps `main` can take after `setup`
succeeds. -/
inductive MainStep where
  | fatalConfigError
  | immediateScan
  | watchLoop
deriving DecidableEq, Repr

/-- The mode dispatch of `main` (`src/main.rs:98-139`), as written in the
source: the fatal configuration error fires when `!args.watch &&
args.immediate`; otherwise `immediate_mode` runs when `!args.immediate`,
and then `watch_mode` runs when `args.watch`. -/
def main_steps (args : ModeArgs) : List MainStep :=
  if !args.watch && args.immediate then
    [.fatalConfigError]
  else
    (if !args.immediate then [.immediateScan] else []) ++
    (if args.watch then [.watchLoop] else [])

/-- A path delivered in a notification event. -/
abbrev EventPath := String

/-- `notify::event::RenameMode`. -/
inductive RenameMode where
  | Any
  | To
  | From
  | Both
  | Other
deriving DecidableEq, Repr

/-- `notify::event::ModifyKind` (payloads other than the rename mode are
never inspected by the source and are dropped). -/
inductive ModifyKind where
  | Any
  | Data
  | Metadata
  | Name (mode : RenameMode)
  | Other
deriving DecidableEq, Repr

/-- `notify::event::EventKind` (the `Create`/`Remove`/`Access` payloads are
matched with `_` by the source and are dropped). -/
inductive EventKind where
  | Any
  | Access
  | Create
  | Modify (kind : ModifyKind)
  | Remove
  | Other
deriving DecidableEq, Repr

/-- A raw notification event: a kind tag plus its path list. -/
structure Event where
  kind : EventKind
  paths : List EventPath
deriving DecidableEq, Repr

/-- Outcome of classifying one event in the watch loop's `match`
(`src/main.rs:244-312`): either a single relevant path handed to
`handle_path`, a silent skip, or a malformed event (expected path absent),
which is reported and counted as an error. -/
inductive Classified where
  | handled (path : EventPath)
  | skipped
  | malformed
deriving DecidableEq, Repr

/-- The guard of the first `match` arm: `matches!(event.kind,
EventKind::Create(_))`. -/
def is_create_event (k : EventKind) : Bool :=
  match k with
  | .Create => true
  | _ => false

/-- The guard of the second `match` arm: `matches!(event.kind,
Modify(Name(_))) && !matches!(event.kind, Modify(Name(From)))`. -/
def is_rename_dest_event (k : EventKind) : Bool :=
  (match k with
   | .Modify (.Name _) => true
   | _ => false) &&
  !(match k with
    | .Modify (.Name .From) => true
    | _ => false)

/-- The path selection of the watch loop's `match` (`src/main.rs:244-312`):
create events take `paths.get(0)`; rename events other than the `From` half
take `paths.get(1)`, falling back to `paths.get(0)`; a missing path is
malformed; every other kind falls through to `Ok(_) => {}`. -/
def classify (e : Event) : Classified :=
  if is_create_event e.kind then
    match e.paths.get? 0 with
    | some path => .handled path
    | none => .malformed
  else if is_rename_dest_event e.kind then
    match e.paths.get? 1 with
    | some path => .handled path
    | none =>
      match e.paths.get? 0 with
      | some path => .handled path
      | none => .malformed
  else
    .skipped

/-- `ERROR_LIMIT` (`src/main.rs:7`). -/
def ERROR_LIMIT : Nat := 20

/-- `ERROR_TIME_LIMIT` in seconds (`src/main.rs:10`). -/
def ERROR_TIME_LIMIT : Nat := 5

/-- The watch loop's breaker state: the running `error_counter` and the
window-start instant `timer`, in whole seconds. -/
structure BreakerState where
  error_counter : Nat
  timer : Nat
deriving DecidableEq, Repr

/-- The end-of-iteration breaker check (`src/main.rs:314-322`), evaluated
once per loop iteration at instant `now`: `none` models the fatal
`return Err(...)` (the TRIPPED state); otherwise the state for the next
iteration, with the hard-coded `> 5` of the reset branch kept literal. -/
def breaker_check (s : BreakerState) (now : Nat) : Option BreakerState :=
  if ERROR_LIMIT ≤ s.error_counter ∧ now - s.timer ≤ ERROR_TIME_LIMIT then
    none
  else if 5 < now - s.timer then
    some ⟨0, now⟩
  else
    some s

/-- `handle_path` (`src/main.rs:327-353`), with the filesystem abstracted:
`view` gives the observed `EntryView` of a path and `hide` gives the
outcome of `hide_file` on it. -/
def handle_path (view : EventPath → EntryView)
    (hide : EventPath → Except String Unit) (path : EventPath)
    (file_names file_extensions : List String)
    (case_sensitive hide_files hide_directories test_mode : Bool) :
    Except String Unit :=
  match should_hide_file (view path) file_names file_extensions
      case_sensitive hide_files hide_directories with
  | .error e => .error e
  | .ok true => if test_mode then .ok () else hide path
  | .ok false => .ok ()

/-- Number of errors one received event contributes to `error_counter` in
the body of the watch loop (`src/main.rs:244-312`): 1 when `handle_path`
fails on the classified path, 1 when the expected path is absent, 0
otherwise. -/
def event_errors (view : EventPath → EntryView)
    (hide : EventPath → Except String Unit)
    (file_names file_extensions : List String)
    (case_sensitive hide_files hide_directories test_mode : Bool)
    (e : Event) : Nat :=
  match classify e with
  | .handled path =>
    match handle_path view hide path file_names file_extensions
        case_sensitive hide_files hide_directories test_mode with
    | .error _ => 1
    | .ok _ => 0
  | .skipped => 0
  | .malformed => 1

/-- One full iteration of the watch loop at instant `now`: record the
event's errors, then run the breaker check; `none` is the fatal exit. -/
def watch_iter (view : EventPath → EntryView)
    (hide : EventPath → Except String Unit)
    (file_names file_extensions : List String)
    (case_sensitive hide_files hide_directories test_mode : Bool)
    (s : BreakerState) (e : Event) (now : Nat) : Option BreakerState :=
  breaker_check
    ⟨s.error_counter +
       event_errors view hide file_names file_extensions case_sensitive
         hide_files hide_directories test_mode e,
     s.timer⟩ now

/-- Run the watch loop over a finite trace of timed events; `none` when
some iteration trips the breaker. -/
def run_watch (view : EventPath → EntryView)
    (hide : EventPath → Except String Unit)
    (file_names file_extensions : List String)
    (case_sensitive hide_files hide_directories test_mode : Bool) :
    BreakerState → List (Event × Nat) → Option BreakerState
  | s, [] => some s
  | s, (e, now) :: rest =>
    match watch_iter view hide file_names file_extensions case_sensitive
        hide_files hide_directories test_mode s e now with
    | none => none
    | some s' =>
      run_watch view hide file_names file_extensions case_sensitive
        hide_files hide_directories test_mode s' rest

/-- A breaker-only iteration: `err` tells whether this iteration recorded
an error, after which the check runs at instant `now`.  This is
`watch_iter` with the event abstracted to its error contribution. -/
def breaker_iter (s : BreakerState) (err : Bool) (now : Nat) :
    Option BreakerState :=
  breaker_check ⟨s.error_counter + (if err then 1 else 0), s.timer⟩ now

/-- Run the breaker over a finite trace of timed error flags. -/
def run_breaker : BreakerState → List (Bool × Nat) → Option BreakerState
  | s, [] => some s
  | s, (err, now) :: rest =>
    match breaker_iter s err now with
    | none => none
    | some s' => run_breaker s' rest

/-- The non-Windows `hide_file` (`src/main.rs:406-438`), acting on the
multiset of sibling names in the entry's parent directory, modelled as a
`Finset String`.  `fs::rename` fails when the source name is absent and
otherwise replaces the old name by the dot-prefixed one. -/
def hide_file (file_name : String) (dir : Finset String) :
    Except String (Finset String) :=
  if starts_with_dot file_name then
    .ok dir
  else if file_name ∈ dir then
    .ok (insert ("." ++ file_name) (dir.erase file_name))
  else
    .error "Failed to rename path"

/-- The directory contents after invoking the non-Windows `hide_file`,
with a failed invocation leaving the directory unchanged. -/
def after_hide (file_name : String) (dir : Finset String) : Finset String :=
  match hide_file file_name dir with
  | .ok dir' => dir'
  | .error _ => dir

/-- `FILE_ATTRIBUTE_HIDDEN` (winnt). -/
def FILE_ATTRIBUTE_HIDDEN : Nat := 2

/-- The Windows `hide_file` (`src/main.rs:356-402`), acting on the entry's
attribute word: already hidden is a no-op, otherwise the hidden bit is
or-ed in (the `SetFileAttributesW` call is modelled as succeeding; its
environmental failure is outside the state model). -/
def hide_file_windows (attributes : Nat) : Except String Nat :=
  if attributes &&& FILE_ATTRIBUTE_HIDDEN == FILE_ATTRIBUTE_HIDDEN then
    .ok attributes
  else
    .ok (attributes ||| FILE_ATTRIBUTE_HIDDEN)

/-- The attribute word after invoking the Windows `hide_file`. -/
def after_hide_windows (attributes : Nat) : Nat :=
  match hide_file_windows attributes with
  | .ok a => a
  | .error _ => attributes

/-- Prefixing a dot changes the name: the dotted name is one character
longer. -/
theorem dot_prepend_ne (s : String) : ("." ++ s) ≠ s := by
  intro h
  have hlen := congrArg String.length h
  rw [String.length_append] at hlen
  have hdot : (".").length = 1 := rfl
  omega

/-- Claim C1: the claim states that `immediate_mode` runs exactly when
`args.immediate` is true.  In the source the guard is `!args.immediate`, so
with `watch = true, immediate = true` the immediate scan is skipped, while
with `immediate = false` it runs (before watch mode when watch is set). -/
theorem C1_immediate_guard_inverted :
    main_steps ⟨true, true⟩ = [MainStep.watchLoop] ∧
    main_steps ⟨true, false⟩ =
      [MainStep.immediateScan, MainStep.watchLoop] ∧
    main_steps ⟨false, false⟩ = [MainStep.immediateScan] := by
  decide

/-- Claim C2: the claim states that the fatal configuration error fires
exactly when both mode flags are false.  In the source the condition is
`!args.watch && args.immediate`, so `watch = false, immediate = false`
passes (and runs the immediate scan), while
`watch = false, immediate = true` is rejected. -/
theorem C2_rejection_condition_inverted :
    main_steps ⟨false, false⟩ = [MainStep.immediateScan] ∧
    main_steps ⟨false, true⟩ = [MainStep.fatalConfigError] := by
  decide

/-- Claim C3: the claim states that with `case_sensitive = false` the
filters are folded in `setup`, so `name_filters = \x7b"SECRET.TXT"\x7d`
hides the file "secret.txt".  In the source `setup` folds exactly when
`case_sensitive` is true, so the insensitive run returns `Ok(false)`
(the case-sensitive half of the scenario does hold). -/
theorem C3_case_folding_inverted :
    should_hide_file ⟨some ⟨true, false⟩, some "secret.txt", some "txt"⟩
        (setup_file_names ["secret.txt"] true) (setup_file_extensions [] true)
        true true true = .ok true ∧
    should_hide_file ⟨some ⟨true, false⟩, some "secret.txt", some "txt"⟩
        (setup_file_names ["SECRET.TXT"] false)
        (setup_file_extensions [] false)
        false true true = .ok false ∧
    setup_file_names ["SECRET.TXT"] false = ["SECRET.TXT"] ∧
    setup_file_names ["SECRET.TXT"] true = ["secret.txt"] := by
  decide

/-- Claim C4: with both filter sets empty, `should_hide_file` returns
`Ok(true)` for every entry, regardless of its kind and of the kind-enable
flags. -/
theorem C4_empty_filters_hide_everything (e : EntryView)
    (case_sensitive hide_files hide_directories : Bool) :
    should_hide_file e [] [] case_sensitive hide_files hide_directories =
      .ok true := by
  simp [should_hide_file]

/-- Claim C4 witness: a concrete entry with empty filters is hidden. -/
theorem C4_empty_filters_hide_everything_witness :
    should_hide_file ⟨none, none, none⟩ [] [] false false false =
      .ok true :=
  C4_empty_filters_hide_everything ⟨none, none, none⟩ false false false

/-- Claim C5: rename classification.  A rename event that is not the
`From` half selects the second path when the event carries two or more
paths, and the single path when it carries exactly one; the `From` half is
skipped without counting an error; every kind that is neither a create nor
a rename is silently skipped. -/
theorem C5_classifier_rename_selection :
    (∀ (m : RenameMode) (ps : List EventPath) (p : EventPath),
      m ≠ RenameMode.From → ps.get? 1 = some p →
      classify ⟨.Modify (.Name m), ps⟩ = .handled p) ∧
    (∀ (m : RenameMode) (p : EventPath),
      m ≠ RenameMode.From →
      classify ⟨.Modify (.Name m), [p]⟩ = .handled p) ∧
    (∀ ps : List EventPath,
      classify ⟨.Modify (.Name .From), ps⟩ = .skipped) ∧
    (∀ (k : EventKind) (ps : List EventPath),
      k ≠ .Create → (∀ m : RenameMode, k ≠ .Modify (.Name m)) →
      classify ⟨k, ps⟩ = .skipped) := by
  refine ⟨?_, ?_, ?_, ?_⟩
  · intro m ps p hm hp
    cases ps with
    | nil => simp at hp
    | cons a tl =>
      cases tl with
      | nil => simp at hp
      | cons b t =>
        have hb : b = p := by simpa using hp
        subst hb
        cases m
        case From => exact absurd rfl hm
        all_goals rfl
  · intro m p hm
    cases m
    case From => exact absurd rfl hm
    all_goals rfl
  · intro ps
    rfl
  · intro k ps hk hm
    cases k with
    | Modify mk =>
      cases mk with
      | Name m => exact absurd rfl (hm m)
      | _ => rfl
    | Create => exact absurd rfl hk
    | _ => rfl

/-- Claim C5 witness: concrete rename events exercising each clause. -/
theorem C5_classifier_rename_selection_witness :
    classify ⟨.Modify (.Name .Both), ["old", "new"]⟩ =
      .handled "new" ∧
    classify ⟨.Modify (.Name .To), ["new"]⟩ = .handled "new" ∧
    classify ⟨.Modify (.Name .From), ["old"]⟩ = .skipped ∧
    classify ⟨.Remove, ["gone"]⟩ = .skipped :=
  ⟨C5_classifier_rename_selection.1 .Both ["old", "new"] "new"
      (by decide) rfl,
   C5_classifier_rename_selection.2.1 .To "new" (by decide),
   C5_classifier_rename_selection.2.2.1 ["old"],
   C5_classifier_rename_selection.2.2.2 .Remove ["gone"] (by decide)
     (fun m => by cases m <;> decide)⟩

/-- Claim C6: the breaker check trips (fatal exit) exactly when the
accumulated count has reached `ERROR_LIMIT = 20` and the elapsed time since
window start is at most `ERROR_TIME_LIMIT = 5` seconds; otherwise, when
elapsed time exceeds the window, the count resets to 0 and the window
restarts now; within the window and under the limit nothing changes (also
for an error-free iteration).  Concretely, 20 errors within 2 seconds trip,
and 20 errors with a 6-second gap after the 10th do not. -/
theorem C6_error_breaker :
    (∀ c t now, breaker_check ⟨c, t⟩ now = none ↔
      ERROR_LIMIT ≤ c ∧ now - t ≤ ERROR_TIME_LIMIT) ∧
    (∀ c t now, ERROR_TIME_LIMIT < now - t →
      breaker_check ⟨c, t⟩ now = some ⟨0, now⟩) ∧
    (∀ c t now, c < ERROR_LIMIT → now - t ≤ ERROR_TIME_LIMIT →
      breaker_check ⟨c, t⟩ now = some ⟨c, t⟩) ∧
    (∀ c t now, c < ERROR_LIMIT → now - t ≤ ERROR_TIME_LIMIT →
      breaker_iter ⟨c, t⟩ false now = some ⟨c, t⟩) ∧
    run_breaker ⟨0, 0⟩ (List.replicate 20 (true, 1)) = none ∧
    run_breaker ⟨0, 0⟩
        (List.replicate 10 (true, 0) ++ List.replicate 10 (true, 6)) =
      some ⟨9, 6⟩ := by
  have hcheck : ∀ c t now, c < ERROR_LIMIT → now - t ≤ ERROR_TIME_LIMIT →
      breaker_check ⟨c, t⟩ now = some ⟨c, t⟩ := by
    intro c t now hc ht
    have hlim : 5 = ERROR_TIME_LIMIT := rfl
    simp only [breaker_check]
    rw [if_neg (by omega), if_neg (by omega)]
  refine ⟨?_, ?_, hcheck, ?_, by decide, by decide⟩
  · intro c t now
    simp only [breaker_check]
    split_ifs with h1 h2
    · simp [h1]
    · exact iff_of_false (by simp) h1
    · exact iff_of_false (by simp) h1
  · intro c t now ht
    have hlim : 5 = ERROR_TIME_LIMIT := rfl
    simp only [breaker_check]
    rw [if_neg (by omega), if_pos (by omega)]
  · intro c t now hc ht
    have h0 : c + (if false then 1 else 0) = c := by simp
    simpa [breaker_iter, h0] using hcheck c t now hc ht

/-- Claim C6 witness: the transition rule at concrete states. -/
theorem C6_error_breaker_witness :
    breaker_check ⟨3, 0⟩ 9 = some ⟨0, 9⟩ ∧
    breaker_check ⟨3, 0⟩ 2 = some ⟨3, 0⟩ ∧
    breaker_iter ⟨3, 0⟩ false 2 = some ⟨3, 0⟩ ∧
    breaker_check ⟨20, 0⟩ 2 = none :=
  ⟨C6_error_breaker.2.1 3 0 9 (by decide),
   C6_error_breaker.2.2.1 3 0 2 (by decide) (by decide),
   C6_error_breaker.2.2.2.1 3 0 2 (by decide) (by decide),
   (C6_error_breaker.1 20 0 2).mpr (by decide)⟩

/-- Claim C7: a file entry (file-hiding enabled, filters not both empty)
whose name is not in the name filters and which has no extension makes
`should_hide_file` return the extension-retrieval error, not `Ok(false)`. -/
theorem C7_missing_extension_is_error
    (file_names file_extensions : List String)
    (case_sensitive hide_directories : Bool) (name : String)
    (hfilters : (file_names.isEmpty && file_extensions.isEmpty) = false)
    (hname : file_names.contains name = false) :
    should_hide_file ⟨some ⟨true, false⟩, some name, none⟩ file_names
        file_extensions case_sensitive true hide_directories =
      .error "Failed to get file extension from path" := by
  have hname' : name ∉ file_names := by simpa using hname
  simp [should_hide_file, hfilters, hname']

/-- Claim C7 witness: the name "b" misses the filter set containing only
"a" and carries no extension, so the check surfaces the extension error. -/
theorem C7_missing_extension_is_error_witness :
    should_hide_file ⟨some ⟨true, false⟩, some "b", none⟩ ["a"] [] false
        true true =
      .error "Failed to get file extension from path" :=
  C7_missing_extension_is_error ["a"] [] false true "b" (by decide)
    (by decide)

/-- Claim C8: directories are matched only against the name filters: with
empty name filters and non-empty extension filters, a directory entry is
never hidden, whatever its name or recorded extension. -/
theorem C8_directory_ignores_extension_filters
    (file_extensions : List String) (name : String) (ext : Option String)
    (case_sensitive hide_files hide_directories : Bool)
    (hne : file_extensions.isEmpty = false) :
    should_hide_file ⟨some ⟨false, true⟩, some name, ext⟩ [] file_extensions
        case_sensitive hide_files hide_directories = .ok false := by
  cases case_sensitive <;> cases hide_directories <;>
    simp [should_hide_file, hne]

/-- Claim C8 witness: a directory named "cache" with
`extension_filters` containing "cache" and empty name filters is not
hidden. -/
theorem C8_directory_ignores_extension_filters_witness :
    should_hide_file ⟨some ⟨false, true⟩, some "cache", none⟩ [] ["cache"]
        true true true = .ok false :=
  C8_directory_ignores_extension_filters ["cache"] "cache" none true true
    true rfl

/-- Or-ing in the hidden bit makes the hidden-bit test succeed. -/
theorem or_hidden_and_hidden (a : Nat) : (a ||| 2) &&& 2 = 2 := by
  apply Nat.eq_of_testBit_eq
  intro i
  simp [Nat.testBit_and, Nat.testBit_or]
  cases h : Nat.testBit 2 i <;> simp [h]

/-- Claim C9: the Hide Primitive is idempotent.  On the rename-based
platform a second invocation on the same path leaves the directory state
of the first invocation unchanged, and a dot-prefixed name is a no-op
returning Ok; on the attribute-based platform a second invocation leaves
the attribute word unchanged, and an already-set hidden bit is a no-op
returning Ok with the attributes untouched. -/
theorem C9_hide_file_idempotent :
    (∀ (file_name : String) (dir : Finset String),
      after_hide file_name (after_hide file_name dir) =
        after_hide file_name dir) ∧
    (∀ (file_name : String) (dir : Finset String),
      starts_with_dot file_name = true →
      hide_file file_name dir = .ok dir) ∧
    (∀ attributes : Nat,
      after_hide_windows (after_hide_windows attributes) =
        after_hide_windows attributes) ∧
    (∀ attributes : Nat,
      attributes &&& FILE_ATTRIBUTE_HIDDEN = FILE_ATTRIBUTE_HIDDEN →
      hide_file_windows attributes = .ok attributes) := by
  refine ⟨?_, ?_, ?_, ?_⟩
  · intro n dir
    by_cases hdot : starts_with_dot n = true
    · simp [after_hide, hide_file, hdot]
    · by_cases hmem : n ∈ dir
      · have h1 : after_hide n dir = insert ("." ++ n) (dir.erase n) := by
          simp [after_hide, hide_file, hdot, hmem]
        have hnotin : n ∉ insert ("." ++ n) (dir.erase n) := by
          intro hin
          rcases Finset.mem_insert.mp hin with h | h
          · exact dot_prepend_ne n h.symm
          · exact Finset.not_mem_erase n dir h
        rw [h1]
        simp [after_hide, hide_file, hdot, hnotin]
      · have h1 : after_hide n dir = dir := by
          simp [after_hide, hide_file, hdot, hmem]
        rw [h1]
        simp [after_hide, hide_file, hdot, hmem]
  · intro n dir hdot
    simp [hide_file, hdot]
  · intro a
    by_cases h : a &&& FILE_ATTRIBUTE_HIDDEN = FILE_ATTRIBUTE_HIDDEN
    · simp [after_hide_windows, hide_file_windows, h]
    · have h1 : after_hide_windows a = a ||| FILE_ATTRIBUTE_HIDDEN := by
        simp [after_hide_windows, hide_file_windows, h]
      rw [h1]
      simp [after_hide_windows, hide_file_windows, FILE_ATTRIBUTE_HIDDEN,
        or_hidden_and_hidden a]
  · intro a h
    simp [hide_file_windows, h]

/-- Claim C9 witness: a dot-prefixed name and an attribute word with the
hidden bit already set are both no-ops. -/
theorem C9_hide_file_idempotent_witness :
    after_hide "a.txt" (after_hide "a.txt" {"a.txt"}) =
      after_hide "a.txt" {"a.txt"} ∧
    hide_file ".hidden" {".hidden"} = .ok {".hidden"} ∧
    after_hide_windows (after_hide_windows 1) = after_hide_windows 1 ∧
    hide_file_windows 3 = .ok 3 :=
  ⟨C9_hide_file_idempotent.1 "a.txt" {"a.txt"},
   C9_hide_file_idempotent.2.1 ".hidden" {".hidden"} (by decide),
   C9_hide_file_idempotent.2.2.1 1,
   C9_hide_file_idempotent.2.2.2 3 (by decide)⟩

/-- Claim C10: a per-entry failure from `handle_path` on a classified path
contributes one error to the breaker counter, exactly like a
malformed-event error, so 20 such failures inside the 5-second window trip
the breaker fatally. -/
theorem C10_per_entry_failures_trip_breaker :
    (∀ (view : EventPath → EntryView)
       (hide : EventPath → Except String Unit)
       (file_names file_extensions : List String)
       (case_sensitive hide_files hide_directories test_mode : Bool)
       (e : Event) (p : EventPath) (msg : String),
      classify e = .handled p →
      handle_path view hide p file_names file_extensions case_sensitive
          hide_files hide_directories test_mode = .error msg →
      event_errors view hide file_names file_extensions case_sensitive
          hide_files hide_directories test_mode e =
        event_errors view hide file_names file_extensions case_sensitive
          hide_files hide_directories test_mode ⟨.Create, []⟩) ∧
    (∀ (view : EventPath → EntryView)
       (hide : EventPath → Except String Unit)
       (file_names file_extensions : List String)
       (case_sensitive hide_files hide_directories test_mode : Bool),
      event_errors view hide file_names file_extensions case_sensitive
        hide_files hide_directories test_mode ⟨.Create, []⟩ = 1) ∧
    run_watch (fun _ => ⟨none, none, none⟩) (fun _ => .ok ()) ["x"] []
        false true true false ⟨0, 0⟩
        (List.replicate 20 (⟨.Create, ["f"]⟩, 1)) = none := by
  refine ⟨?_, ?_, by decide⟩
  · intro view hide ns es cs hf hd tm e p msg hc hh
    have h1 : event_errors view hide ns es cs hf hd tm e =
        match handle_path view hide p ns es cs hf hd tm with
        | .error _ => 1
        | .ok _ => 0 := by
      unfold event_errors
      rw [hc]
    rw [h1, hh]
    rfl
  · intro view hide ns es cs hf hd tm
    rfl

/-- Claim C10 witness: a create event whose path has unreadable metadata
contributes the same single error as a pathless event. -/
theorem C10_per_entry_failures_trip_breaker_witness :
    event_errors (fun _ => ⟨none, none, none⟩) (fun _ => .ok ()) ["x"] []
        false true true false ⟨.Create, ["f"]⟩ =
      event_errors (fun _ => ⟨none, none, none⟩) (fun _ => .ok ()) ["x"] []
        false true true false ⟨.Create, []⟩ :=
  C10_per_entry_failures_trip_breaker.1 (fun _ => ⟨none, none, none⟩)
    (fun _ => .ok ()) ["x"] [] false true true false ⟨.Create, ["f"]⟩ "f"
    "Failed to get metadata for path" rfl rfl

end FileHider
